import Mathlib

/-!
Verification development for the `mrciles-server` scraper-bot core.

The definitions below are a shallow embedding of the SCRAPER_BOT section of
the repository (the dual-path fetcher, the monitor-set store, the batch scan,
the price query engine and the pagination handlers).  External effects
(browser navigation, HTTP GET, markup extraction) are modelled by explicit
per-site environments recording the outcome of each effectful call; machine
floats are modelled by rationals.
-/

namespace MrcilesServer

/-- A monitored product record as stored in `products.json`
(`{id, name, url, priceSelector, stockSelector, checkText}`). -/
structure Site where
  id : Nat
  name : String
  url : String
  priceSelector : String
  stockSelector : String
  checkText : String
deriving DecidableEq

/-- The `{price, stock}` pair produced by either extraction path. -/
structure PriceStock where
  price : String
  stock : String
deriving DecidableEq

/-- Environment recording the outcome of every effectful call the dual-path
fetcher makes for one site: the result of each `page.goto` navigation attempt,
the text found by the two in-page selectors (`none` models "no match", which
the page script maps to `"N/A"`), the outcome of `axios.get`, and the trimmed
text cheerio extracts for each selector (`""` when nothing matches). -/
structure SiteEnv where
  gotoAttempt : Nat → Except String Unit
  renderPrice : Option String
  renderStock : Option String
  axiosGet : Except String Unit
  parsedPriceText : String
  parsedStockText : String

/-- The loop body of `safeGoto(page, url, retries)`: try `attempt i`; on
success return; on failure rethrow when this was the last allowed attempt,
otherwise sleep 5000 ms and retry with `i + 1`.  The value also carries the
number of navigation attempts made and the total backoff milliseconds slept. -/
def safeGotoLoop (attempt : Nat → Except String Unit) : Nat → Nat → Except String Unit × Nat × Nat
  | _, 0 => (Except.ok (), 0, 0)
  | i, rem + 1 =>
    match attempt i with
    | Except.ok _ => (Except.ok (), 1, 0)
    | Except.error e =>
      if rem = 0 then (Except.error e, 1, 0)
      else
        let r := safeGotoLoop attempt (i + 1) rem
        (r.1, r.2.1 + 1, r.2.2 + 5000)

/-- Model of `safeGoto` as called by `puppeteerCheck`, with the default `retries = 3`. -/
def safeGotoResult (attempt : Nat → Except String Unit) : Except String Unit :=
  (safeGotoLoop attempt 0 3).1

/-- Number of navigation attempts `safeGoto` makes with `retries = 3`. -/
def safeGotoAttempts (attempt : Nat → Except String Unit) : Nat :=
  (safeGotoLoop attempt 0 3).2.1

/-- Total backoff milliseconds `safeGoto` sleeps with `retries = 3`. -/
def safeGotoBackoff (attempt : Nat → Except String Unit) : Nat :=
  (safeGotoLoop attempt 0 3).2.2

/-- Model of `priceEl ? priceEl.innerText.trim() : "N/A"` from the in-page script. -/
def textOrNA : Option String → String
  | none => "N/A"
  | some s => s

/-- Model of `puppeteerCheck(site)`: navigate with `safeGoto` (propagating its error),
then read both selectors in the rendered page, defaulting to `"N/A"`. -/
def puppeteerCheck (e : SiteEnv) : Except String PriceStock :=
  match safeGotoResult e.gotoAttempt with
  | Except.error msg => Except.error msg
  | Except.ok _ => Except.ok ⟨textOrNA e.renderPrice, textOrNA e.renderStock⟩

/-- Model of `$(sel).first().text().trim() || "N/A"` from `axiosFallback`. -/
def orNA (s : String) : String := if s = "" then "N/A" else s

/-- Model of `axiosFallback(site)`: HTTP GET plus cheerio extraction; any failure in the
body is caught and rethrown as the fixed message `"Fallback error"`. -/
def axiosFallback (e : SiteEnv) : Except String PriceStock :=
  match e.axiosGet with
  | Except.error _ => Except.error "Fallback error"
  | Except.ok _ => Except.ok ⟨orNA e.parsedPriceText, orNA e.parsedStockText⟩

/-- The inner try/catch of `checkSites`: try `puppeteerCheck`, and on any
failure call `axiosFallback` (once), whose outcome is then the final one. -/
def fetchSite (e : SiteEnv) : Except String PriceStock :=
  match puppeteerCheck e with
  | Except.ok r => Except.ok r
  | Except.error _ => axiosFallback e

/-- How many times the fallback path runs for one site: it sits in the single
`catch` of the inner try, so it runs exactly once when `puppeteerCheck`
throws, and never otherwise. -/
def fallbackCalls (e : SiteEnv) : Nat :=
  match puppeteerCheck e with
  | Except.ok _ => 0
  | Except.error _ => 1

/-- One element of the `results` array `checkSites` builds: either the
success shape `{id, name, url, price, stock, checkText}` or the error shape
`{id, name, url, error}`. -/
inductive ScanResult where
  | ok (id : Nat) (name url price stock checkText : String)
  | err (id : Nat) (name url error : String)
deriving DecidableEq

/-- The body of the `for (const site of products)` loop in `checkSites`,
for one site. -/
def scanOne (env : Site → SiteEnv) (s : Site) : ScanResult :=
  match fetchSite (env s) with
  | Except.ok r => ScanResult.ok s.id s.name s.url r.price r.stock s.checkText
  | Except.error m => ScanResult.err s.id s.name s.url m

/-- Model of `checkSites()`: walk the product list front to rear, pushing one result
per record. -/
def checkSites (env : Site → SiteEnv) : List Site → List ScanResult
  | [] => []
  | s :: rest => scanOne env s :: checkSites env rest

/-- In-memory scrape cache: `lastScrapeResults` and `scrapeCacheTimestamp`
(milliseconds). -/
structure CacheState where
  lastScrapeResults : List ScanResult
  scrapeCacheTimestamp : Nat
deriving DecidableEq

/-- The constant `CACHE_DURATION = 5 * 60 * 1000` ms. -/
def CACHE_DURATION : Nat := 5 * 60 * 1000

/-- Digits of a numeral, most significant first, as a natural number. -/
def digitsVal (l : List Char) : Nat :=
  l.foldl (fun acc c => acc * 10 + (c.toNat - '0'.toNat)) 0

/-- The integer digits, fraction digits and fraction length that `parseFloat`
reads from the longest leading prefix of the form `digits` or `digits.digits`
(either digit block possibly empty, but not both); `none` models `NaN`. -/
def parseFloatParts (s : String) : Option (Nat × Nat × Nat) :=
  let cs := s.data
  let intPart := cs.takeWhile Char.isDigit
  let rest := cs.dropWhile Char.isDigit
  match rest with
  | '.' :: rest2 =>
    let fracPart := rest2.takeWhile Char.isDigit
    if intPart = [] ∧ fracPart = [] then none
    else some (digitsVal intPart, digitsVal fracPart, fracPart.length)
  | _ => if intPart = [] then none else some (digitsVal intPart, 0, 0)

/-- The rational value `i + f / 10 ^ len` named by parsed float parts. -/
def ratOfParts (t : Nat × Nat × Nat) : ℚ :=
  (t.1 : ℚ) + (t.2.1 : ℚ) / (10 : ℚ) ^ t.2.2

/-- Model of `parseFloat` restricted to the strings `parsePrice` feeds it (digits,
dots, commas), with `NaN` modelled as `none`. -/
def parseFloatQ (s : String) : Option ℚ :=
  (parseFloatParts s).map ratOfParts

/-- Model of `String.prototype.lastIndexOf` on a character list: `-1` when absent. -/
def lastIndexOf (l : List Char) (c : Char) : Int :=
  match l.reverse.findIdx? (fun x => x = c) with
  | none => -1
  | some r => (l.length : Int) - 1 - (r : Int)

/-- Model of `str.replace(',', '.')`: replace the first occurrence only. -/
def replaceFirst (l : List Char) (a b : Char) : List Char :=
  match l with
  | [] => []
  | c :: rest => if c = a then b :: rest else c :: replaceFirst rest a b

/-- The character class kept by `replace(/[^\d.,]/g, '')`. -/
def isPriceChar (c : Char) : Bool := c.isDigit || c == '.' || c == ','

/-- Model of `parsePrice(priceStr)`: empty (falsy) input gives `null`; otherwise strip
everything but digits, dots and commas, treat the later of the last comma and
last dot as the decimal point, strip the other separator, and `parseFloat`
the result (`none` covers both `null` and `NaN`). -/
def parsePrice (priceStr : String) : Option ℚ :=
  if priceStr = "" then none
  else
    let clean := priceStr.data.filter isPriceChar
    let lastComma := lastIndexOf clean ','
    let lastDot := lastIndexOf clean '.'
    if lastDot < lastComma then
      parseFloatQ ⟨replaceFirst (clean.filter (fun c => c ≠ '.')) ',' '.'⟩
    else if lastComma < lastDot then
      parseFloatQ ⟨clean.filter (fun c => c ≠ ',')⟩
    else
      parseFloatQ ⟨clean⟩

/-- The `price` field of a scan result; error-shaped results have none
(`p.price` is `undefined` there). -/
def ScanResult.priceStr : ScanResult → Option String
  | ScanResult.ok _ _ _ price _ _ => some price
  | ScanResult.err _ _ _ _ => none

/-- The value of `parsePrice(p.price)` for a scan result (`undefined` is falsy, so
error-shaped results parse to `null`). -/
def parsePriceOfResult (r : ScanResult) : Option ℚ :=
  match r.priceStr with
  | none => none
  | some s => parsePrice s

/-- The map+filter body shared by `getPriceData`: attach
`priceNum = isNaN(parsePrice(p.price)) ? null : parsePrice(p.price)` and keep
the entries whose `priceNum` is not `null`. -/
def cachePriceData (results : List ScanResult) : List (ScanResult × ℚ) :=
  results.filterMap (fun r => (parsePriceOfResult r).map (fun q => (r, q)))

/-- Model of `getPriceData()`: `null` when the cache is older than `CACHE_DURATION` or
empty; otherwise the cached results decorated with parsed prices, dropping
the unparseable ones. -/
def getPriceData (now : Nat) (st : CacheState) : Option (List (ScanResult × ℚ)) :=
  if CACHE_DURATION < now - st.scrapeCacheTimestamp ∨ st.lastScrapeResults.length = 0 then
    none
  else
    some (cachePriceData st.lastScrapeResults)

/-- The test `p => p.error` as a Boolean predicate. -/
def ScanResult.isErr : ScanResult → Bool
  | ScanResult.err _ _ _ _ => true
  | ScanResult.ok _ _ _ _ _ _ => false

/-- The `/invalid` handler's data flow:
`results = lastScrapeResults.length > 0 ? lastScrapeResults : await checkSites()`
followed by `results.filter(p => p.error)`.  `fresh` stands for the value a
fresh `checkSites()` call would return. -/
def invalidCommandResults (st : CacheState) (fresh : List ScanResult) : List ScanResult :=
  (if 0 < st.lastScrapeResults.length then st.lastScrapeResults else fresh).filter
    ScanResult.isErr

/-- Model of `parsePrice(p.price) || null` from the `/prices` rescan branch: a parsed
value of `0` is falsy and collapses to `null`. -/
def truthyPrice (q : ℚ) : Option ℚ := if q = 0 then none else some q

/-- The `/prices` rescan branch: decorate fresh results with
`parsePrice(p.price) || null` and keep the non-null ones. -/
def rescanPriceData (results : List ScanResult) : List (ScanResult × ℚ) :=
  results.filterMap (fun r => ((parsePriceOfResult r).bind truthyPrice).map (fun q => (r, q)))

/-- The `/prices` handler's data selection: use `getPriceData()` when it is
non-null, otherwise rescan and use the rescan decoration. -/
def pricesCommandData (now : Nat) (st : CacheState) (fresh : List ScanResult) :
    List (ScanResult × ℚ) :=
  match getPriceData now st with
  | some d => d
  | none => rescanPriceData fresh

/-- Comparison of two values through a rational key, as an ordering
relation. -/
def keyLE {α : Type _} (k : α → ℚ) (a b : α) : Prop := k a ≤ k b

instance {α : Type _} (k : α → ℚ) : DecidableRel (keyLE k) :=
  fun a b => inferInstanceAs (Decidable (k a ≤ k b))

instance {α : Type _} (k : α → ℚ) : IsTotal α (keyLE k) := ⟨fun a b => le_total (k a) (k b)⟩

instance {α : Type _} (k : α → ℚ) : IsTrans α (keyLE k) := ⟨fun _ _ _ => le_trans⟩

/-- Model of
`priceData.map(p => ({...p, difference: Math.abs(p.priceNum - targetPrice)}))`:
decorate each priced record with its absolute distance from the target. -/
def withDifference (target : ℚ) (l : List (ScanResult × ℚ)) : List ((ScanResult × ℚ) × ℚ) :=
  l.map (fun p => (p, |p.2 - target|))

/-- Model of `findClosestPrices(priceData, targetPrice, count)`: empty data gives an
empty list; otherwise stable-sort the decorated records by ascending
difference (`sort((a, b) => a.difference - b.difference)`, stable per
ECMAScript, hence insertion sort's result) and take the first `count`
(`count = 5` at the call sites). -/
def findClosestPrices (priceData : List (ScanResult × ℚ)) (target : ℚ) (count : Nat) :
    List ((ScanResult × ℚ) × ℚ) :=
  if priceData.length = 0 then []
  else ((withDifference target priceData).insertionSort (keyLE Prod.snd)).take count

/-- The cached pagination state stored in `client.messageCache` under the
outbound message id. -/
structure PageState where
  pages : List (List ScanResult)
  currentPage : Nat
deriving DecidableEq

/-- The user-visible outcome of a pagination interaction. -/
inductive NavReply where
  | expired
  | invalidPage
  | showPage (idx : Nat)
  | ignored
  | caughtError (msg : String)
deriving DecidableEq

/-- The part_001 button/select pagination handler: a missing cache entry
replies "Pagination data expired."; a requested index that is `NaN`
(modelled `none`), negative, or at least `pages.length` replies "Invalid
page selected."; otherwise the requested page is rendered. -/
def buttonNav1 (cache : Option PageState) (requested : Option Int) : NavReply :=
  match cache with
  | none => NavReply.expired
  | some st =>
    match requested with
    | none => NavReply.invalidPage
    | some p =>
      if 0 ≤ p ∧ p < (st.pages.length : Int) then NavReply.showPage p.toNat
      else NavReply.invalidPage

/-- JS array indexing `cached.pages[newPage]`: `undefined` (here `none`)
outside `0..length-1`. -/
def pagesAt (st : PageState) (p : Int) : Option (List ScanResult) :=
  if 0 ≤ p then st.pages.get? p.toNat else none

/-- Model of `createPageEmbed(pageItems, ...)` applied to a possibly-undefined
`pageItems`: `pageItems.map(...)` throws a TypeError when `pageItems` is
`undefined`. -/
def createPageEmbedChecked (items : Option (List ScanResult)) : Except String Unit :=
  match items with
  | none => Except.error "Cannot read properties of undefined (reading \x27map\x27)"
  | some _ => Except.ok ()

/-- The part_002 button/select pagination handler including the enclosing
`interactionCreate` try/catch, which turns a thrown error into the generic
reply `❌ Error: <message>`: a missing cache entry returns silently; there is
no range check on the requested index, so out of range the page renderer
throws. -/
def buttonNav2 (cache : Option PageState) (requested : Option Int) : NavReply :=
  match cache with
  | none => NavReply.ignored
  | some st =>
    let items := match requested with
      | none => none
      | some p => pagesAt st p
    match createPageEmbedChecked items with
    | Except.ok _ =>
      NavReply.showPage (match requested with | some p => p.toNat | none => 0)
    | Except.error m => NavReply.caughtError ("❌ Error: " ++ m)

/-- A cached pagination state of three pages. -/
def demoPageState : PageState := { pages := [[], [], []], currentPage := 0 }

/-- The body of `generateProductId`'s `for (let id = 1; id <= 100; id++)`
loop: starting at `i` with `fuel` iterations left, return the first counter
value not among the used ids, and `null` when the loop runs out. -/
def genIdLoop (ids : List Nat) : Nat → Nat → Option Nat
  | _, 0 => none
  | i, fuel + 1 => if i ∈ ids then genIdLoop ids (i + 1) fuel else some i

/-- Model of `generateProductId()`: the lowest id in `[1,100]` not used by any record,
`null` when every one is taken. -/
def generateProductId (products : List Site) : Option Nat :=
  genIdLoop (products.map Site.id) 1 100

/-- The comparator `(a, b) => a.id - b.id` as an ordering relation. -/
def idLE (a b : Site) : Prop := a.id ≤ b.id

instance : DecidableRel idLE := fun a b => Nat.decLe a.id b.id

instance : IsTotal Site idLE := ⟨fun a b => Nat.le_total a.id b.id⟩

instance : IsTrans Site idLE := ⟨fun _ _ _ => Nat.le_trans⟩

/-- Model of `reorganizeIds()` up to persistence: stable-sort the records by id (the
ECMAScript `Array.prototype.sort` is stable, and a stable sort by a `≤`
comparator is insertion sort's result), then renumber them `1..N` in place. -/
def reorganizeIds (products : List Site) : List Site :=
  ((products.insertionSort idLE).enum).map (fun ip => { ip.2 with id := ip.1 + 1 })

/-- The store's in-memory `products` array together with the persisted
contents of `products.json`. -/
structure StoreState where
  products : List Site
  file : List Site
deriving DecidableEq

/-- Model of `saveProducts()`: full-file rewrite of the in-memory array. -/
def saveProducts (st : StoreState) : StoreState := { st with file := st.products }

/-- The constant `DEFAULT_PRICE_SELECTOR` (also the literal in the other variant's `add`). -/
def DEFAULT_PRICE_SELECTOR : String := "b[class^=\x27productPrice_price\x27]"

/-- The constant `DEFAULT_STOCK_SELECTOR` (also the literal in the other variant's `add`). -/
def DEFAULT_STOCK_SELECTOR : String := "button[class*=\x27productButton_soldout\x27]"

/-- The constant `DEFAULT_CHECK_TEXT` (also the literal in the other variant's `add`). -/
def DEFAULT_CHECK_TEXT : String := "Sold Out"

/-- The user-visible outcome of an add command. -/
inductive AddReply where
  | added (id : Nat)
  | maxLimit
  | noIds
  | missingField
deriving DecidableEq

/-- The `/addlink` handler: reject falsy name/url, allocate an id (failing
with the max-limit reply when none is free), else push the record with the
default selectors and persist. -/
def addlink (st : StoreState) (name url : String) : AddReply × StoreState :=
  if name = "" ∨ url = "" then (AddReply.missingField, st)
  else
    match generateProductId st.products with
    | none => (AddReply.maxLimit, st)
    | some id =>
      let st2 := { st with products := st.products
        ++ [⟨id, name, url, DEFAULT_PRICE_SELECTOR, DEFAULT_STOCK_SELECTOR, DEFAULT_CHECK_TEXT⟩] }
      (AddReply.added id, saveProducts st2)

/-- The other variant's `add` handler: reject when 100 records are already
stored, then allocate an id as above. -/
def addCmd (st : StoreState) (name url : String) : AddReply × StoreState :=
  if 100 ≤ st.products.length then (AddReply.maxLimit, st)
  else
    match generateProductId st.products with
    | none => (AddReply.noIds, st)
    | some id =>
      let st2 := { st with products := st.products
        ++ [⟨id, name, url, DEFAULT_PRICE_SELECTOR, DEFAULT_STOCK_SELECTOR, DEFAULT_CHECK_TEXT⟩] }
      (AddReply.added id, saveProducts st2)

/-- A store filled to its 100-record capacity with ids `1..100`. -/
def fullStore : StoreState :=
  { products := (List.range 100).map (fun i => ⟨i + 1, "p", "u", "ps", "ss", "ct"⟩)
  , file := (List.range 100).map (fun i => ⟨i + 1, "p", "u", "ps", "ss", "ct"⟩) }

/-- A small unsorted store for exercising id allocation and renumbering. -/
def demoUnsorted : List Site :=
  [⟨2, "b", "v", "p", "s", "c"⟩, ⟨5, "a", "u", "p", "s", "c"⟩]

/-- A site environment in which every effectful call fails. -/
def failEnv : SiteEnv :=
  { gotoAttempt := fun _ => Except.error "nav timeout"
  , renderPrice := none
  , renderStock := none
  , axiosGet := Except.error "ECONNREFUSED"
  , parsedPriceText := ""
  , parsedStockText := "" }

/-- An expired cache still holding one error-shaped result. -/
def staleCache : CacheState :=
  { lastScrapeResults := [ScanResult.err 1 "A" "ua" "boom"], scrapeCacheTimestamp := 0 }

/-- A fresh cache holding one unparseable-price record and one parseable one. -/
def naCache : CacheState :=
  { lastScrapeResults :=
      [ScanResult.ok 1 "A" "ua" "N/A" "s" "", ScanResult.ok 2 "B" "ub" "50" "s" ""]
  , scrapeCacheTimestamp := 0 }

/-- A one-record scan outcome whose price string is `"0"`. -/
def zeroResults : List ScanResult := [ScanResult.ok 1 "Z" "uz" "0" "s" ""]

/-- A site environment in which every effectful call succeeds. -/
def okEnv : SiteEnv :=
  { gotoAttempt := fun _ => Except.ok ()
  , renderPrice := some "€5,99"
  , renderStock := some "In stock"
  , axiosGet := Except.ok ()
  , parsedPriceText := ""
  , parsedStockText := "" }

/-- A two-record monitor set used to exercise the batch scan. -/
def demoSites : List Site :=
  [⟨1, "A", "ua", "ps", "ss", "Sold Out"⟩, ⟨2, "B", "ub", "ps", "ss", "Sold Out"⟩]

/-- Per-site environment: record 1 renders fine, record 2 fails both paths. -/
def demoEnv : Site → SiteEnv := fun s => if s.id = 1 then okEnv else failEnv

end MrcilesServer

namespace MrcilesServer

/-- C1: with `retries = 3`, when all three navigation attempts fail,
`safeGoto` makes exactly 3 attempts, sleeps a fixed 5000 ms between
consecutive attempts (10000 ms total), and propagates the last navigation
error; `checkSites`' inner catch then invokes `axiosFallback` exactly once,
and when the fallback also throws, the single propagated error is the
fallback's own failure ("Fallback error"), not the rendering one.  The
attempt count never exceeds 3 for any navigation behaviour. -/
theorem dual_path_fetch_fallback (e : SiteEnv) (e0 e1 e2 ea : String)
    (h0 : e.gotoAttempt 0 = Except.error e0)
    (h1 : e.gotoAttempt 1 = Except.error e1)
    (h2 : e.gotoAttempt 2 = Except.error e2)
    (ha : e.axiosGet = Except.error ea) :
    puppeteerCheck e = Except.error e2
    ∧ safeGotoAttempts e.gotoAttempt = 3
    ∧ safeGotoBackoff e.gotoAttempt = 5000 + 5000
    ∧ (∀ g : Nat → Except String Unit, safeGotoAttempts g ≤ 3)
    ∧ fallbackCalls e = 1
    ∧ fetchSite e = axiosFallback e
    ∧ fetchSite e = Except.error "Fallback error" := by
  have hloop : safeGotoLoop e.gotoAttempt 0 3 = (Except.error e2, 3, 10000) := by
    simp [safeGotoLoop, h0, h1, h2]
  have hbound : ∀ fuel i (g : Nat → Except String Unit), (safeGotoLoop g i fuel).2.1 ≤ fuel := by
    intro fuel
    induction fuel with
    | zero => intro i g; simp [safeGotoLoop]
    | succ n ih =>
      intro i g
      simp only [safeGotoLoop]
      cases g i with
      | ok _ => simp
      | error e =>
        by_cases hn : n = 0
        · simp [hn]
        · simpa [hn] using Nat.succ_le_succ (ih (i + 1) g)
  have hpc : puppeteerCheck e = Except.error e2 := by
    simp [puppeteerCheck, safeGotoResult, hloop]
  refine ⟨hpc, ?_, ?_, ?_, ?_, ?_, ?_⟩
  · simp [safeGotoAttempts, hloop]
  · simp [safeGotoBackoff, hloop]
  · intro g; exact hbound 3 0 g
  · simp [fallbackCalls, hpc]
  · simp [fetchSite, hpc]
  · simp [fetchSite, hpc, axiosFallback, ha]

/-- Witness for C1 at a concrete all-failing environment. -/
theorem dual_path_fetch_fallback_witness :
    fetchSite failEnv = Except.error "Fallback error"
    ∧ fallbackCalls failEnv = 1
    ∧ safeGotoAttempts failEnv.gotoAttempt = 3 := by
  have h := dual_path_fetch_fallback failEnv "nav timeout" "nav timeout" "nav timeout"
    "ECONNREFUSED" rfl rfl rfl rfl
  exact ⟨h.2.2.2.2.2.2, h.2.2.2.2.1, h.2.1⟩

/-- C2: one scan walks the monitor set in store order and yields exactly one
result per record — index `i` of the output is the fetch of index `i` of the
input, the batch length never changes whatever the per-record failures, and
each per-record result is success-shaped `{id,name,url,price,stock,checkText}`
when the dual-path fetch succeeds and error-shaped `{id,name,url,error}` when
it fails, without aborting the rest of the batch. -/
theorem scan_batch_sequential (env : Site → SiteEnv) (ps : List Site) :
    (checkSites env ps).length = ps.length
    ∧ (∀ i : Nat, (checkSites env ps).get? i = (ps.get? i).map (scanOne env))
    ∧ ∀ s : Site,
        (∀ r, fetchSite (env s) = Except.ok r →
          scanOne env s = ScanResult.ok s.id s.name s.url r.price r.stock s.checkText)
        ∧ (∀ m, fetchSite (env s) = Except.error m →
          scanOne env s = ScanResult.err s.id s.name s.url m) := by
  refine ⟨?_, ?_, ?_⟩
  · induction ps with
    | nil => rfl
    | cons s rest ih => simpa [checkSites] using ih
  · intro i
    induction ps generalizing i with
    | nil => simp [checkSites]
    | cons s rest ih =>
      cases i with
      | zero => simp [checkSites]
      | succ j => simpa [checkSites] using ih j
  · intro s
    constructor
    · intro r hr; simp [scanOne, hr]
    · intro m hm; simp [scanOne, hm]

/-- C3 counterexample: at `now = 1000000` ms the snapshot captured at `0` is
past its 5-minute time-to-live and `getPriceData` indeed refuses it, yet the
`/invalid` handler still serves the expired snapshot's error entry (a fresh
scan — here empty — would have produced nothing), so it is not true that no
read path is served from an expired snapshot. -/
theorem stale_cache_counterexample :
    CACHE_DURATION < 1000000 - staleCache.scrapeCacheTimestamp
    ∧ getPriceData 1000000 staleCache = none
    ∧ invalidCommandResults staleCache [] = [ScanResult.err 1 "A" "ua" "boom"]
    ∧ invalidCommandResults staleCache [] ≠ List.filter ScanResult.isErr [] := by
  refine ⟨by norm_num [CACHE_DURATION, staleCache], ?_, rfl, by decide⟩
  simp [getPriceData, staleCache, CACHE_DURATION]

/-- C3 amended: after the 5-minute time-to-live the price query is never
served from the cached snapshot — `getPriceData` returns null and the
`/prices` handler recomputes from a fresh scan — but the `/invalid` listing
ignores the time-to-live: it serves the cached snapshot whenever it is
non-empty, and rescans only when the cache is empty. -/
theorem stale_cache_amended (now : Nat) (st : CacheState) (fresh : List ScanResult)
    (h : CACHE_DURATION < now - st.scrapeCacheTimestamp) :
    getPriceData now st = none
    ∧ pricesCommandData now st fresh = rescanPriceData fresh
    ∧ (0 < st.lastScrapeResults.length →
        invalidCommandResults st fresh = st.lastScrapeResults.filter ScanResult.isErr)
    ∧ (st.lastScrapeResults.length = 0 →
        invalidCommandResults st fresh = fresh.filter ScanResult.isErr) := by
  have hg : getPriceData now st = none := by simp [getPriceData, h]
  refine ⟨hg, by simp [pricesCommandData, hg], ?_, ?_⟩
  · intro hpos; simp [invalidCommandResults, hpos]
  · intro hz; simp [invalidCommandResults, hz]

/-- Witness for the amended C3 at the concrete expired cache. -/
theorem stale_cache_amended_witness :
    getPriceData 1000000 staleCache = none
    ∧ invalidCommandResults staleCache []
        = staleCache.lastScrapeResults.filter ScanResult.isErr := by
  have h := stale_cache_amended 1000000 staleCache []
    (by norm_num [CACHE_DURATION, staleCache])
  exact ⟨h.1, h.2.2.1 (by decide)⟩

/-- C6: price parsing treats the last occurring separator among `,`/`.` as
the decimal point and strips the other one (`"1.234,56"` and `"1,234.56"`
both parse to `1234.56`), a non-numeric price such as `"N/A"` parses to
null/NaN, and any record whose price fails to parse never appears in the
ranked price data served from the cache. -/
theorem parse_price_locale :
    parsePrice "1.234,56" = some ((123456 : ℚ) / 100)
    ∧ parsePrice "1,234.56" = some ((123456 : ℚ) / 100)
    ∧ parsePrice "N/A" = none
    ∧ (∀ (now : Nat) (st : CacheState) (r : ScanResult),
        parsePriceOfResult r = none →
        ∀ l, getPriceData now st = some l → ∀ q : ℚ, (r, q) ∉ l) := by
  refine ⟨?_, ?_, rfl, ?_⟩
  · rw [show parsePrice "1.234,56" = some (ratOfParts (1234, 56, 2)) from rfl]
    norm_num [ratOfParts]
  · rw [show parsePrice "1,234.56" = some (ratOfParts (1234, 56, 2)) from rfl]
    norm_num [ratOfParts]
  · intro now st r hr l hl q hmem
    by_cases hc : CACHE_DURATION < now - st.scrapeCacheTimestamp
        ∨ st.lastScrapeResults.length = 0
    · rw [getPriceData, if_pos hc] at hl
      exact Option.noConfusion hl
    · rw [getPriceData, if_neg hc] at hl
      rcases Option.some.injEq .. ▸ hl with rfl
      rcases List.mem_filterMap.mp hmem with ⟨a, _, hfa⟩
      rcases Option.map_eq_some'.mp hfa with ⟨qa, hqa, heq⟩
      rw [Prod.mk.injEq] at heq
      obtain ⟨rfl, rfl⟩ := heq
      rw [hr] at hqa
      exact Option.noConfusion hqa

/-- Witness for C6: the `"N/A"`-priced record is excluded from the served
price data. -/
theorem parse_price_locale_witness :
    (ScanResult.ok 1 "A" "ua" "N/A" "s" "", (0 : ℚ))
      ∉ cachePriceData naCache.lastScrapeResults :=
  parse_price_locale.2.2.2 0 naCache (ScanResult.ok 1 "A" "ua" "N/A" "s" "") rfl
    (cachePriceData naCache.lastScrapeResults) rfl 0

/-- C10: the `/prices` rescan branch coerces a parsed price of exactly `0` to
null (`parsePrice(p.price) || null`) and so drops zero-priced records, while
the cache-served branch (`getPriceData`) drops only records whose price fails
to parse: the rescan data is exactly the cache data with zero prices removed,
and a zero-priced record appears in the cache-served data but never in the
rescan data. -/
theorem zero_price_cache_rescan (results : List ScanResult) :
    rescanPriceData results = (cachePriceData results).filter (fun p => decide (p.2 ≠ 0))
    ∧ ∀ r ∈ results, parsePriceOfResult r = some 0 →
        ((r, (0 : ℚ)) ∈ cachePriceData results
          ∧ ∀ q : ℚ, (r, q) ∉ rescanPriceData results) := by
  constructor
  · induction results with
    | nil => rfl
    | cons r rest ih =>
      simp only [rescanPriceData, cachePriceData, List.filterMap_cons] at *
      cases hp : parsePriceOfResult r with
      | none => simpa [hp] using ih
      | some q =>
        by_cases hq : q = 0
        · subst hq
          simpa [hp, truthyPrice] using ih
        · simpa [hp, truthyPrice, hq] using ih
  · intro r hr hp0
    constructor
    · exact List.mem_filterMap.mpr ⟨r, hr, by rw [parsePriceOfResult] at hp0 ⊢; rw [hp0]; rfl⟩
    · intro q hmem
      rcases List.mem_filterMap.mp hmem with ⟨a, _, hfa⟩
      rcases Option.map_eq_some'.mp hfa with ⟨qa, hqa, heq⟩
      rw [Prod.mk.injEq] at heq
      obtain ⟨rfl, rfl⟩ := heq
      rw [hp0] at hqa
      simp [truthyPrice] at hqa

/-- Witness for C10 at a concrete zero-priced record. -/
theorem zero_price_cache_rescan_witness :
    (ScanResult.ok 1 "Z" "uz" "0" "s" "", (0 : ℚ)) ∈ cachePriceData zeroResults
    ∧ (ScanResult.ok 1 "Z" "uz" "0" "s" "", (0 : ℚ)) ∉ rescanPriceData zeroResults := by
  have hp : parsePriceOfResult (ScanResult.ok 1 "Z" "uz" "0" "s" "") = some 0 := by
    rw [show parsePriceOfResult (ScanResult.ok 1 "Z" "uz" "0" "s" "")
        = some (ratOfParts (0, 0, 0)) from rfl]
    norm_num [ratOfParts]
  have h := (zero_price_cache_rescan zeroResults).2 (ScanResult.ok 1 "Z" "uz" "0" "s" "")
    (by simp [zeroResults]) hp
  exact ⟨h.1, h.2 0⟩

/-- Witness for C2 on a concrete two-record set whose second record fails. -/
theorem scan_batch_sequential_witness :
    (checkSites demoEnv demoSites).length = demoSites.length
    ∧ scanOne demoEnv ⟨1, "A", "ua", "ps", "ss", "Sold Out"⟩
        = ScanResult.ok 1 "A" "ua" "€5,99" "In stock" "Sold Out"
    ∧ scanOne demoEnv ⟨2, "B", "ub", "ps", "ss", "Sold Out"⟩
        = ScanResult.err 2 "B" "ub" "Fallback error" := by
  have h := scan_batch_sequential demoEnv demoSites
  refine ⟨h.1, ?_, ?_⟩
  · exact (h.2.2 ⟨1, "A", "ua", "ps", "ss", "Sold Out"⟩).1 ⟨"€5,99", "In stock"⟩ rfl
  · exact (h.2.2 ⟨2, "B", "ub", "ps", "ss", "Sold Out"⟩).2 "Fallback error" rfl

/-- A successful `genIdLoop` run returns a counter value from the scanned
window that is unused, and every earlier window value is used. -/
theorem genIdLoop_some (ids : List Nat) :
    ∀ fuel i n, genIdLoop ids i fuel = some n →
      i ≤ n ∧ n < i + fuel ∧ n ∉ ids ∧ ∀ j, i ≤ j → j < n → j ∈ ids := by
  intro fuel
  induction fuel with
  | zero => intro i n h; exact absurd h (by simp [genIdLoop])
  | succ f ih =>
    intro i n h
    rw [genIdLoop] at h
    by_cases hmem : i ∈ ids
    · rw [if_pos hmem] at h
      obtain ⟨h1, h2, h3, h4⟩ := ih (i + 1) n h
      refine ⟨by omega, by omega, h3, ?_⟩
      intro j hj1 hj2
      by_cases hji : j = i
      · subst hji; exact hmem
      · exact h4 j (by omega) hj2
    · rw [if_neg hmem] at h
      cases h
      exact ⟨le_refl i, by omega, hmem, fun j hj1 hj2 => absurd hj2 (by omega)⟩

/-- The function `genIdLoop` returns `none` exactly when every counter value in the
scanned window is used. -/
theorem genIdLoop_none (ids : List Nat) :
    ∀ fuel i, genIdLoop ids i fuel = none ↔ ∀ j, i ≤ j → j < i + fuel → j ∈ ids := by
  intro fuel
  induction fuel with
  | zero =>
    intro i
    constructor
    · intro _ j hj1 hj2; omega
    · intro _; rfl
  | succ f ih =>
    intro i
    rw [genIdLoop]
    by_cases hmem : i ∈ ids
    · rw [if_pos hmem, ih (i + 1)]
      constructor
      · intro h j hj1 hj2
        by_cases hji : j = i
        · subst hji; exact hmem
        · exact h j (by omega) (by omega)
      · intro h j hj1 hj2
        exact h j (by omega) (by omega)
    · rw [if_neg hmem]
      constructor
      · intro h; exact Option.noConfusion h
      · intro h; exact absurd (h i (le_refl i) (by omega)) hmem

/-- C4: `generateProductId` only ever hands out an id in `[1,100]` that no
record uses, and it hands out the lowest unused such id; on a store with
fewer than 100 records an id is always found; and after any sequence of
mutations, `reorganizeIds` renumbers the ids to exactly the contiguous range
`1..N` for `N` the number of records. -/
theorem add_id_allocation_reorganize (products : List Site) :
    (∀ n : Nat, generateProductId products = some n →
      1 ≤ n ∧ n ≤ 100 ∧ n ∉ products.map Site.id
        ∧ ∀ j : Nat, 1 ≤ j → j < n → j ∈ products.map Site.id)
    ∧ (products.length < 100 → generateProductId products ≠ none)
    ∧ (reorganizeIds products).map Site.id = List.range' 1 products.length := by
  refine ⟨?_, ?_, ?_⟩
  · intro n h
    obtain ⟨h1, h2, h3, h4⟩ := genIdLoop_some (products.map Site.id) 100 1 n h
    exact ⟨h1, by omega, h3, h4⟩
  · intro hlen hnone
    have hcover := (genIdLoop_none (products.map Site.id) 100 1).mp hnone
    have hsub : (List.range' 1 100).toFinset ⊆ (products.map Site.id).toFinset := by
      intro x hx
      rw [List.mem_toFinset] at hx ⊢
      rw [List.mem_range'] at hx
      exact hcover x (by omega) (by omega)
    have hcard := Finset.card_le_card hsub
    rw [List.toFinset_card_of_nodup (List.nodup_range' 1 100)] at hcard
    have hle := List.toFinset_card_le (products.map Site.id)
    rw [List.length_range'] at hcard
    rw [List.length_map] at hle
    omega
  · have hlen : (products.insertionSort idLE).length = products.length :=
      (List.perm_insertionSort idLE products).length_eq
    calc (reorganizeIds products).map Site.id
        = (products.insertionSort idLE).enum.map
            (fun ip => Site.id { ip.2 with id := ip.1 + 1 }) := by
          rw [reorganizeIds, List.map_map]; rfl
      _ = ((products.insertionSort idLE).enum.map Prod.fst).map (fun i => i + 1) := by
          rw [List.map_map]; rfl
      _ = (List.range products.length).map (fun i => i + 1) := by
          rw [List.enum_map_fst, hlen]
      _ = List.range' 1 products.length := by
          rw [List.range'_eq_map_range]
          exact List.map_congr_left (fun i _ => Nat.add_comm i 1)

/-- Witness for C4 on a concrete two-record store with ids `{2, 5}`: the
allocator hands out id 1, and renumbering yields ids `[1, 2]`. -/
theorem add_id_allocation_reorganize_witness :
    (1 ≤ 1 ∧ 1 ≤ 100 ∧ 1 ∉ demoUnsorted.map Site.id
      ∧ ∀ j : Nat, 1 ≤ j → j < 1 → j ∈ demoUnsorted.map Site.id)
    ∧ generateProductId demoUnsorted ≠ none
    ∧ (reorganizeIds demoUnsorted).map Site.id = List.range' 1 demoUnsorted.length := by
  refine ⟨(add_id_allocation_reorganize demoUnsorted).1 1 (by decide),
    (add_id_allocation_reorganize demoUnsorted).2.1 (by decide),
    (add_id_allocation_reorganize demoUnsorted).2.2⟩

/-- C5: adding to a store already holding 100 records (with the invariant
ids, all distinct and in `[1,100]`) fails — the allocator finds no free id,
the `/addlink` handler replies with its max-limit error and the other
variant's `add` handler rejects on its length check — and in both cases the
store is returned unchanged, the in-memory array and the persisted file
contents alike. -/
theorem add_full_store_unchanged (st : StoreState) (name url : String)
    (hn : name ≠ "") (hu : url ≠ "")
    (hlen : st.products.length = 100)
    (hnodup : (st.products.map Site.id).Nodup)
    (hrange : ∀ n ∈ st.products.map Site.id, 1 ≤ n ∧ n ≤ 100) :
    generateProductId st.products = none
    ∧ addlink st name url = (AddReply.maxLimit, st)
    ∧ addCmd st name url = (AddReply.maxLimit, st) := by
  have hids : ∀ j, 1 ≤ j → j < 101 → j ∈ st.products.map Site.id := by
    have hsub : (st.products.map Site.id).toFinset ⊆ Finset.Icc 1 100 := by
      intro x hx
      rw [List.mem_toFinset] at hx
      rw [Finset.mem_Icc]
      exact hrange x hx
    have hcard : (Finset.Icc 1 100).card ≤ (st.products.map Site.id).toFinset.card := by
      rw [Nat.card_Icc, List.toFinset_card_of_nodup hnodup, List.length_map, hlen]
    have heq := Finset.eq_of_subset_of_card_le hsub hcard
    intro j hj1 hj2
    have : j ∈ (st.products.map Site.id).toFinset := by
      rw [heq, Finset.mem_Icc]; omega
    exact List.mem_toFinset.mp this
  have hnone : generateProductId st.products = none := by
    rw [generateProductId, genIdLoop_none]
    intro j hj1 hj2
    exact hids j hj1 (by omega)
  refine ⟨hnone, ?_, ?_⟩
  · rw [addlink, if_neg (by simp [hn, hu]), hnone]
  · rw [addCmd, if_pos (by omega)]

/-- Witness for C5 at the concrete full store. -/
theorem add_full_store_unchanged_witness :
    addlink fullStore "n" "u" = (AddReply.maxLimit, fullStore)
    ∧ addCmd fullStore "n" "u" = (AddReply.maxLimit, fullStore) := by
  have h := add_full_store_unchanged fullStore "n" "u" (by decide) (by decide)
    (by decide) (by decide) (by decide)
  exact ⟨h.2.1, h.2.2⟩

/-- C9: `reorganizeIds` only renumbers — there is a permutation of the input
records, ordered by their previous ids ascending, whose renumbering with
`1, 2, ...` is exactly the output; in particular every record keeps its
name, url, selectors and check text, and no record is added or removed. -/
theorem reorganize_frame (l : List Site) :
    ∃ l' : List Site, l'.Perm l ∧ (l'.map Site.id).Pairwise (· ≤ ·)
      ∧ reorganizeIds l = l'.enum.map (fun ip => { ip.2 with id := ip.1 + 1 })
      ∧ (reorganizeIds l).map
            (fun s => (s.name, s.url, s.priceSelector, s.stockSelector, s.checkText))
          = l'.map (fun s => (s.name, s.url, s.priceSelector, s.stockSelector, s.checkText)) := by
  refine ⟨l.insertionSort idLE, List.perm_insertionSort idLE l, ?_, rfl, ?_⟩
  · rw [List.pairwise_map]
    exact List.sorted_insertionSort idLE l
  · calc (reorganizeIds l).map
          (fun s => (s.name, s.url, s.priceSelector, s.stockSelector, s.checkText))
        = ((l.insertionSort idLE).enum.map Prod.snd).map
            (fun s => (s.name, s.url, s.priceSelector, s.stockSelector, s.checkText)) := by
          rw [reorganizeIds, List.map_map, List.map_map]; rfl
      _ = (l.insertionSort idLE).map
            (fun s => (s.name, s.url, s.priceSelector, s.stockSelector, s.checkText)) := by
          rw [List.enum_map_snd]

/-- Inserting `x` by key order walks past only elements of strictly smaller
key, so filtering by any key value `d` commutes with the insertion: `x` lands
in front of the key-`d` entries exactly when its own key is `d`. -/
theorem orderedInsert_filter_key {α : Type _} (k : α → ℚ) (x : α) (d : ℚ) :
    ∀ l : List α, (l.orderedInsert (keyLE k) x).filter (fun a => decide (k a = d))
      = if k x = d then x :: l.filter (fun a => decide (k a = d))
        else l.filter (fun a => decide (k a = d)) := by
  intro l
  induction l with
  | nil =>
    by_cases hxd : k x = d
    · rw [if_pos hxd]; simp [List.orderedInsert, List.filter, hxd]
    · rw [if_neg hxd]; simp [List.orderedInsert, List.filter, hxd]
  | cons b t ih =>
    rw [List.orderedInsert]
    by_cases hxb : keyLE k x b
    · rw [if_pos hxb]
      by_cases hxd : k x = d
      · rw [if_pos hxd, List.filter_cons, if_pos (by simpa using hxd)]
      · rw [if_neg hxd, List.filter_cons, if_neg (by simpa using hxd)]
    · rw [if_neg hxb]
      by_cases hxd : k x = d
      · rw [if_pos hxd]
        have hbd : ¬ (k b = d) := by
          intro hbd
          exact hxb (by rw [keyLE, hxd, hbd])
        rw [List.filter_cons, List.filter_cons, if_neg (by simpa using hbd),
          if_neg (by simpa using hbd), ih, if_pos hxd]
      · rw [if_neg hxd, List.filter_cons, List.filter_cons, ih, if_neg hxd]

/-- Keyed insertion sort is stable: filtering the sorted list by any key
value returns those entries in their original order. -/
theorem insertionSort_filter_key {α : Type _} (k : α → ℚ) (d : ℚ) :
    ∀ l : List α, (l.insertionSort (keyLE k)).filter (fun a => decide (k a = d))
      = l.filter (fun a => decide (k a = d)) := by
  intro l
  induction l with
  | nil => rfl
  | cons x t ih =>
    rw [List.insertionSort, orderedInsert_filter_key, List.filter_cons]
    by_cases hxd : k x = d
    · rw [if_pos hxd, ih, if_pos (by simpa using hxd)]
    · rw [if_neg hxd, ih, if_neg (by simpa using hxd)]

/-- C7: the closest-price query returns (a prefix of) the decorated records
sorted by ascending absolute difference from the target, and the sort is
stable — for every difference value, the entries carrying it appear in their
original snapshot order. -/
theorem closest_prices_sorted_stable (priceData : List (ScanResult × ℚ)) (target : ℚ)
    (count : Nat) :
    (findClosestPrices priceData target count).Pairwise (fun a b => a.2 ≤ b.2)
    ∧ findClosestPrices priceData target count
        = ((withDifference target priceData).insertionSort (keyLE Prod.snd)).take count
    ∧ ∀ d : ℚ,
        ((withDifference target priceData).insertionSort (keyLE Prod.snd)).filter
            (fun a => decide (a.2 = d))
          = (withDifference target priceData).filter (fun a => decide (a.2 = d)) := by
  have hsorted := List.sorted_insertionSort (keyLE (Prod.snd : (ScanResult × ℚ) × ℚ → ℚ))
    (withDifference target priceData)
  refine ⟨?_, ?_, ?_⟩
  · rw [findClosestPrices]
    by_cases h : priceData.length = 0
    · rw [if_pos h]; exact List.Pairwise.nil
    · rw [if_neg h]
      exact List.Pairwise.sublist (List.take_sublist count _) hsorted
  · rw [findClosestPrices]
    by_cases h : priceData.length = 0
    · rw [if_pos h]
      have hnil : priceData = [] := List.length_eq_zero.mp h
      subst hnil
      simp [withDifference]
    · rw [if_neg h]
  · intro d
    exact insertionSort_filter_key Prod.snd d (withDifference target priceData)

/-- C8 counterexample: on a cached three-page state, requesting page index 3
through the part_002 handler does not produce an invalid-page rejection —
the unvalidated index reaches `createPageEmbed`, whose TypeError the
catch-all converts into a generic error reply. -/
theorem pagination_out_of_range_counterexample :
    demoPageState.pages.length = 3
    ∧ buttonNav2 (some demoPageState) (some 3)
        = NavReply.caughtError
            "❌ Error: Cannot read properties of undefined (reading \x27map\x27)"
    ∧ buttonNav2 (some demoPageState) (some 3) ≠ NavReply.invalidPage := by
  exact ⟨rfl, rfl, by decide⟩

/-- C8 amended: for an out-of-range (or `NaN`) requested page index, the
part_001 handlers validate and reply "Invalid page selected.", while the
part_002 handler performs no range check — the index reaches the renderer,
which throws, and the interaction-level catch turns that into a generic
`❌ Error: ...` reply; a missing cache entry yields the expired reply
(part_001) or a silent return (part_002); none of these is a crash or an
unhandled failure. -/
theorem pagination_out_of_range_amended (st : PageState) (p : Int)
    (h : p < 0 ∨ (st.pages.length : Int) ≤ p) :
    buttonNav1 (some st) (some p) = NavReply.invalidPage
    ∧ buttonNav2 (some st) (some p)
        = NavReply.caughtError
            "❌ Error: Cannot read properties of undefined (reading \x27map\x27)"
    ∧ buttonNav1 none (some p) = NavReply.expired
    ∧ buttonNav2 none (some p) = NavReply.ignored := by
  have hng : ¬ (0 ≤ p ∧ p < (st.pages.length : Int)) := by omega
  refine ⟨?_, ?_, rfl, rfl⟩
  · rw [buttonNav1, if_neg hng]
  · have hpa : pagesAt st p = none := by
      rw [pagesAt]
      by_cases h0 : 0 ≤ p
      · rw [if_pos h0]
        apply List.get?_eq_none.mpr
        omega
      · rw [if_neg h0]
    rw [buttonNav2]
    simp only [hpa]
    rfl

/-- Witness for the amended C8 at the concrete three-page state and index 3. -/
theorem pagination_out_of_range_amended_witness :
    buttonNav1 (some demoPageState) (some 3) = NavReply.invalidPage
    ∧ buttonNav2 (some demoPageState) (some 3)
        = NavReply.caughtError
            "❌ Error: Cannot read properties of undefined (reading \x27map\x27)" := by
  have h := pagination_out_of_range_amended demoPageState 3 (by decide)
  exact ⟨h.1, h.2.1⟩

end MrcilesServer
